import Mathlib

/-!
Verification of the `@code-engine/workers` worker-pool library.

This file gives a shallow embedding, in Lean 4, of the parts of the source that
the specification's claims are about:

* the degradation `clone` used for non-natively-clonable values
  (`src/clone/clone.ts`, `src/clone/clone-helpers.ts`),
* the file transport `cloneFile` and its transfer list (`src/clone/clone-file.ts`),
* the main-thread `Messenger` (pending-request table, completed history,
  `rejectAllPendingMessages`) and `Worker.terminate` (`src/main-thread/worker.ts`),
* the `WorkerPool` round-robin selection and `dispose` (`src/main-thread/worker-pool.ts`),
* the worker-thread `Executor` dispatch, `importFileProcessor`, `processFile` and
  the per-request logger (`src/worker-thread/executor.ts`, `src/worker-thread/messenger.ts`,
  `src/clone/clone-context.ts` / run-clone module).

JavaScript values that can flow through the degradation clone are modelled by the
inductive type `Val` below.  Reference identity (JavaScript `===`) is modelled by
giving every object-like value a numeric identity `id`; two object values are `===`
exactly when their ids coincide (`jsEq`).  Functions that allocate new objects take
and return a fresh-id counter, so allocation order is explicit.
-/

namespace CEW

/-- A JavaScript runtime value, as relevant to the degradation `clone` in
`src/clone/clone.ts`.  Object-like constructors carry a numeric identity modelling
reference identity.  For object fields, the own-and-inherited enumerable data
properties collected by the source's prototype-chain crawl (`getPropertyNames`
combined with property lookup on the object) are listed flattened, in chain order,
with prototype shadowing already resolved: each name appears at most once, with its
most-derived value.  JavaScript numbers are modelled as integers; `date` stands for
`Date` instances and `buffer` for `ArrayBuffer`s, typed arrays and `DataView`s
(the `cloneable` instanceof list in `src/clone/clone-helpers.ts`).  `errV` models an
`Error` instance by its `name`, `message` and optional `stack` (custom own
properties of errors are elided from the model). -/
inductive Val where
  | undefV
  | nullv
  | bool (b : Bool)
  | num (n : Int)
  | str (s : String)
  | date (id : Nat) (time : Int)
  | buffer (id : Nat) (len : Nat)
  | funcV (id : Nat)
  | errV (id : Nat) (name : String) (message : String) (stack : Option String)
  | arr (id : Nat) (items : List Val)
  | setV (id : Nat) (items : List Val)
  | mapV (id : Nat) (pairs : List (Val × Val))
  | pobj (id : Nat) (fields : List (String × Val))
  | cobj (id : Nat) (fields : List (String × Val))

/-- Whether a value is a JavaScript function (`typeof value === "function"`). -/
def isFuncV : Val → Bool
  | .funcV _ => true
  | _ => false

/-- JavaScript strict equality `===`: object-like values compare by reference
identity (their `id`), primitives by value. -/
def jsEq : Val → Val → Bool
  | .undefV, .undefV => true
  | .nullv, .nullv => true
  | .bool a, .bool b => a == b
  | .num a, .num b => a == b
  | .str a, .str b => a == b
  | .date i _, .date j _ => i == j
  | .buffer i _, .buffer j _ => i == j
  | .funcV i, .funcV j => i == j
  | .errV i _ _ _, .errV j _ _ _ => i == j
  | .arr i _, .arr j _ => i == j
  | .setV i _, .setV j _ => i == j
  | .mapV i _, .mapV j _ => i == j
  | .pobj i _, .pobj j _ => i == j
  | .cobj i _, .cobj j _ => i == j
  | _, _ => false

/-- First-match association-list lookup, modelling JavaScript property lookup on
the flattened field list. -/
def lookupField : List (String × Val) → String → Option Val
  | [], _ => none
  | (k, v) :: rest, key => if k == key then some v else lookupField rest key

/-- Property access `v[key]`, yielding `undefined` for absent keys or non-objects. -/
def getFieldV (v : Val) (key : String) : Val :=
  match v with
  | .pobj _ fields => (lookupField fields key).getD .undefV
  | .cobj _ fields => (lookupField fields key).getD .undefV
  | _ => .undefV

/-- The own-and-inherited property names of an object's flattened field list with
function-valued properties dropped, as collected by `getPropertyNames` in
`src/clone/clone-helpers.ts` ("Ignore methods, since functions aren't cloneable").
`isCloneableFields` and `cloneFields` below fuse this filter with the per-key
property lookup. -/
def getPropertyNames (fields : List (String × Val)) : List String :=
  (fields.filter (fun kv => !isFuncV kv.2)).map Prod.fst

mutual

/-- `isCloneable(value, depth)` from `src/clone/clone-helpers.ts`: whether the value
can be cloned natively.  Falsy values and primitives are cloneable; so are the
built-in `cloneable` instances (dates, buffers, typed arrays); arrays, sets and maps
are cloneable when their members are (at the same depth); a plain object (prototype
is exactly `Object.prototype`) is cloneable when `depth > 0` and all its
non-function properties are cloneable at `depth - 1`; everything else — functions,
errors, class instances — is not. -/
def isCloneableV : Val → Nat → Bool
  | .undefV, _ => true
  | .nullv, _ => true
  | .bool _, _ => true
  | .num _, _ => true
  | .str _, _ => true
  | .date _ _, _ => true
  | .buffer _ _, _ => true
  | .funcV _, _ => false
  | .errV _ _ _ _, _ => false
  | .arr _ items, depth => isCloneableList items depth
  | .setV _ items, depth => isCloneableList items depth
  | .mapV _ pairs, depth => isCloneablePairs pairs depth
  | .pobj _ fields, depth => if 0 < depth then isCloneableFields fields depth else false
  | .cobj _ _, _ => false

/-- `value.every((item) => isCloneable(item, depth))` for arrays and sets. -/
def isCloneableList : List Val → Nat → Bool
  | [], _ => true
  | v :: rest, depth => isCloneableV v depth && isCloneableList rest depth

/-- `[...value].every(([k, v]) => isCloneable(k, depth) && isCloneable(v, depth))`
for maps. -/
def isCloneablePairs : List (Val × Val) → Nat → Bool
  | [], _ => true
  | (k, v) :: rest, depth =>
    isCloneableV k depth && isCloneableV v depth && isCloneablePairs rest depth

/-- The plain-object property walk of `isCloneable`: for every key produced by
`getPropertyNames` (function-valued properties skipped), the property value must be
cloneable at `depth - 1`. -/
def isCloneableFields : List (String × Val) → Nat → Bool
  | [], _ => true
  | (_, v) :: rest, depth =>
    (isFuncV v || isCloneableV v (depth - 1)) && isCloneableFields rest depth

end

/-- `const defaultDepth = 5` in `src/clone/clone.ts`. -/
def defaultDepth : Nat := 5

/-- `Ono.toJSON(error)`: a freshly allocated plain object holding the error's
`name`, `message` and (when present) `stack`. -/
def onoToJSON (id : Nat) (name message : String) (stack : Option String) : Val :=
  .pobj id ([("name", .str name), ("message", .str message)] ++
    (match stack with
     | some st => [("stack", .str st)]
     | none => []))

mutual

/-- `clone(value, depth)` from `src/clone/clone.ts`.  A natively cloneable value is
returned as-is (same reference, fresh counter untouched).  An `Error` is converted
with `Ono.toJSON` and the resulting plain object is cloned at the default depth; in
this model error records hold only strings, so that clone returns the fresh record
as-is (the recursive `clone(Ono.toJSON(value))` call is unfolded accordingly).
Arrays, maps and sets are rebuilt member-wise at the same depth.  Any other object
is coerced to a fresh plain object; each non-function property is cloned at
`depth - 1` when `depth > 0` and replaced by `undefined` otherwise.  Values that
fall through every branch (functions) yield `undefined`.  The second argument of
the result is the updated fresh-id counter. -/
def cloneVal (v : Val) (depth : Nat) (fresh : Nat) : Val × Nat :=
  if isCloneableV v depth then (v, fresh)
  else
    match v with
    | .errV _ name message stack => (onoToJSON fresh name message stack, fresh + 1)
    | .arr _ items =>
      let (copy, fresh') := cloneList items depth (fresh + 1)
      (.arr fresh copy, fresh')
    | .mapV _ pairs =>
      let (copy, fresh') := clonePairs pairs depth (fresh + 1)
      (.mapV fresh copy, fresh')
    | .setV _ items =>
      let (copy, fresh') := cloneList items depth (fresh + 1)
      (.setV fresh copy, fresh')
    | .pobj _ fields =>
      let (copy, fresh') := cloneFields fields depth (fresh + 1)
      (.pobj fresh copy, fresh')
    | .cobj _ fields =>
      let (copy, fresh') := cloneFields fields depth (fresh + 1)
      (.pobj fresh copy, fresh')
    | _ => (.undefV, fresh)

/-- `value.map((item) => clone(item, depth))` for arrays, and the member loop for
sets, threading the fresh-id counter left to right. -/
def cloneList : List Val → Nat → Nat → List Val × Nat
  | [], _, fresh => ([], fresh)
  | v :: rest, depth, fresh =>
    let (cv, fresh') := cloneVal v depth fresh
    let (crest, fresh'') := cloneList rest depth fresh'
    (cv :: crest, fresh'')

/-- The entry loop of the map branch: `copy.set(clone(k, depth), clone(v, depth))`. -/
def clonePairs : List (Val × Val) → Nat → Nat → List (Val × Val) × Nat
  | [], _, fresh => ([], fresh)
  | (k, v) :: rest, depth, fresh =>
    let (ck, fresh') := cloneVal k depth fresh
    let (cv, fresh'') := cloneVal v depth fresh'
    let (crest, fresh''') := clonePairs rest depth fresh''
    ((ck, cv) :: crest, fresh''')

/-- The plain-object coercion loop of `clone`: for each key of `getPropertyNames`
(function-valued properties skipped), `copy[key] = depth > 0 ? clone(prop, depth - 1)
: undefined`. -/
def cloneFields : List (String × Val) → Nat → Nat → List (String × Val) × Nat
  | [], _, fresh => ([], fresh)
  | (key, v) :: rest, depth, fresh =>
    if isFuncV v then cloneFields rest depth fresh
    else
      let (cv, fresh') := if 0 < depth then cloneVal v (depth - 1) fresh else (.undefV, fresh)
      let (crest, fresh'') := cloneFields rest depth fresh'
      ((key, cv) :: crest, fresh'')

end

/-- `clone(value)` with its default `depth = defaultDepth` argument, starting the
fresh-id counter at the given seed. -/
def clone (v : Val) (depth : Nat := defaultDepth) (fresh : Nat := 0) : Val × Nat :=
  cloneVal v depth fresh

/-! ## Wire records: errors, log levels, replies -/

/-- The serialized error record transported across the thread boundary
(`ErrorClone` in `src/clone/clone-error.ts`): `name`, `message`, optional `stack`,
plus the `workerId`/`moduleId` properties the Executor attaches via `ono`. -/
structure ErrorClone where
  name : String
  message : String
  stack : Option String := none
  workerId : Option Nat := none
  moduleId : Option String := none
deriving DecidableEq, Repr

/-- `cloneError(error)` on the worker-thread side serializes a thrown error into an
`ErrorClone` record via `clone`; thrown errors are represented by their records in
this model, so serialization is the identity on them. -/
def cloneErrorRec (e : ErrorClone) : ErrorClone := e

/-- `LogLevel` (`@code-engine/types`): `level ∈ {info, warning, error, debug}`. -/
inductive LogLevel where
  | info
  | warning
  | error
  | debug
deriving DecidableEq, Repr

/-! ## File transport (`src/clone/clone-file.ts`) -/

/-- A typed-array view over an `ArrayBuffer` (a `Buffer`/`Uint8Array` in the
source): the identity and byte length of the underlying buffer, and the view's
offset and length within it. -/
structure ByteView where
  bufferId : Nat
  bufferByteLength : Nat
  byteOffset : Nat
  byteLength : Nat
deriving DecidableEq, Repr

/-- A `File` as it crosses the thread boundary: `path`, optional `source`,
optional timestamps, optional metadata and optional byte contents. -/
structure FileV where
  path : String
  source : Option String := none
  createdAt : Option Int := none
  modifiedAt : Option Int := none
  metadata : Option Val := none
  contents : Option ByteView := none

/-- `cloneFile(file)` from `src/clone/clone-file.ts`: the clone is a shallow copy
of the file (`{ ...file }`, the contents view included), and the underlying
`ArrayBuffer` is put on the transfer list exactly when contents are present and
`contents.byteLength === contents.buffer.byteLength` (the view owns its entire
buffer). -/
def cloneFile (file : FileV) : FileV × Option (List Nat) :=
  let fileClone := { file with }
  match file.contents with
  | some contents =>
    if contents.byteLength = contents.bufferByteLength
    then (fileClone, some [contents.bufferId])
    else (fileClone, none)
  | none => (fileClone, none)

/-- Modelled from the spec: the platform `postMessage` moves every buffer on the
transfer list by ownership, neutering it on the source side (its byte length
becomes 0), while all other data is copied and non-transferred source buffers stay
intact (spec sections 3 "Ownership & lifecycle" and 4.5 "File transport").  This
gives the source-side byte length of a buffer after a send with the given transfer
list. -/
def byteLengthAfterSend (c : ByteView) (transferList : Option (List Nat)) : Nat :=
  if c.bufferId ∈ transferList.getD [] then 0 else c.bufferByteLength

/-! ## Replies (`src/messaging/replies.ts`)

Every reply carries `to`, the id of the request it responds to. -/

/-- A reply sent from an `Executor` back to its `Worker`. -/
inductive Reply where
  | fileProcessorImported (toId : Nat) (name : String)
  | finished (toId : Nat)
  | file (toId : Nat) (file : FileV)
  | log (toId : Nat) (level : LogLevel) (message : Val) (data : Option Val)
  | error (toId : Nat) (error : ErrorClone)

/-- The `to` field of a reply. -/
def Reply.toId : Reply → Nat
  | .fileProcessorImported i _ => i
  | .finished i => i
  | .file i _ => i
  | .log i _ _ _ => i
  | .error i _ => i

namespace MainThread

/-! ## Main-thread `Messenger` (`src/main-thread/messenger.ts`) -/

/-- A reconstructed error on the main thread, as produced by `createError` in
`src/clone/clone-error.ts` or by `ono` directly: the record's fields plus whether
the error was rebuilt as one of the built-in JavaScript error types. -/
structure JSError where
  name : String
  message : String
  stack : Option String := none
  workerId : Option Nat := none
  moduleId : Option String := none
  messageId : Option Nat := none
  builtin : Bool := false
deriving DecidableEq, Repr

/-- `builtInErrorTypes` from `src/clone/clone-error.ts`: the error names mapped to
built-in error constructors. -/
def builtInErrorTypes : List String :=
  ["EvalError", "RangeError", "ReferenceError", "SyntaxError", "TypeError", "URIError"]

/-- `createError(error)` from `src/clone/clone-error.ts`: an `ErrorClone` record is
rebuilt as the corresponding built-in error type when its `name` matches one, and
as a generic `ono` error with the same fields otherwise. -/
def createError (e : ErrorClone) : JSError :=
  if e.name ∈ builtInErrorTypes then
    { name := e.name, message := e.message, stack := e.stack,
      workerId := e.workerId, moduleId := e.moduleId, builtin := true }
  else
    { name := e.name, message := e.message, stack := e.stack,
      workerId := e.workerId, moduleId := e.moduleId, builtin := false }

/-- The messenger's bookkeeping: the keys of the pending-request map `_pending`
(each key stands for its registered reply waiter) and the `_completed` history. -/
structure MessengerState where
  pending : List Nat
  completed : List Nat
deriving DecidableEq, Repr

/-- An observable effect of the messenger: resolving or rejecting a pending
waiter, or emitting an `"error"` event. -/
inductive MAction where
  | resolve (id : Nat) (reply : Reply)
  | reject (id : Nat) (err : JSError)
  | emitError (err : JSError)

/-- The `ono({ messageId }, "Invalid message ID: ...")` error thrown (and then
emitted) for a reply whose id is neither pending nor completed. -/
def invalidMessageIdError (id : Nat) : JSError :=
  { name := "Error", message := "Invalid message ID: " ++ toString id, messageId := some id }

/-- `Messenger._handleMessage(reply)` from `src/main-thread/messenger.ts`: look up
and delete the pending entry for `reply.to`; if found, record the id as completed
and resolve the waiter (or reject it with `createError(reply.error)` for an
`error` reply); otherwise, if the id is not in the completed history either, the
thrown invalid-message-id error is caught and emitted as an `"error"` event; a
completed id is ignored silently. -/
def _handleMessage (s : MessengerState) (reply : Reply) : MessengerState × List MAction :=
  if reply.toId ∈ s.pending then
    let s' : MessengerState := ⟨s.pending.erase reply.toId, s.completed ++ [reply.toId]⟩
    match reply with
    | .error _ e => (s', [.reject reply.toId (createError e)])
    | r => (s', [.resolve r.toId r])
  else if reply.toId ∈ s.completed then
    (s, [])
  else
    (s, [.emitError (invalidMessageIdError reply.toId)])

/-- `Messenger.rejectAllPendingMessages(error)`: drain the whole pending table,
record each drained id as completed, and reject each drained waiter with the given
error. -/
def rejectAllPendingMessages (s : MessengerState) (err : JSError) :
    MessengerState × List MAction :=
  (⟨[], s.completed ++ s.pending⟩, s.pending.map (fun id => .reject id err))

/-! ## `Worker` (`src/main-thread/worker.ts`) -/

/-- The controller-side state of one worker handle: its thread id, its messenger
bookkeeping and the `_isTerminated` flag. -/
structure WorkerState where
  threadId : Nat
  messenger : MessengerState
  isTerminated : Bool
deriving DecidableEq, Repr

/-- `ono({ workerId }, "CodeEngine is terminating.")`: the Terminating error built
in `_handleExit` when the worker was intentionally terminated. -/
def terminatingError (workerId : Nat) : JSError :=
  { name := "Error", message := "CodeEngine is terminating.", workerId := some workerId }

/-- The UnexpectedExit error built in `_handleExit` when the worker crashed or
exited without being asked to. -/
def unexpectedExitError (workerId exitCode : Nat) : JSError :=
  { name := "Error",
    message := "CodeEngine worker #" ++ toString workerId ++
      " unexpectedly exited with code " ++ toString exitCode ++ ".",
    workerId := some workerId }

/-- `Worker._handleExit(exitCode)`: on an intentional termination, build the
Terminating error; otherwise mark the worker terminated, build the UnexpectedExit
error and emit it as a worker-level `"error"` event.  Either way, reject all
pending messages with that error. -/
def _handleExit (w : WorkerState) (exitCode : Nat) : WorkerState × List MAction :=
  if w.isTerminated then
    let err := terminatingError w.threadId
    let (m', acts) := rejectAllPendingMessages w.messenger err
    ({ w with messenger := m' }, acts)
  else
    let err := unexpectedExitError w.threadId exitCode
    let w' := { w with isTerminated := true }
    let (m', acts) := rejectAllPendingMessages w'.messenger err
    ({ w' with messenger := m' }, .emitError err :: acts)

/-- `Worker.terminate()`: if already terminated, return 0 and change nothing.
Otherwise set `_isTerminated` and terminate the underlying thread
(`super.terminate()`), whose exit — with the platform-reported `exitCode` given
here as a parameter — fires the `exit` event handled by `_handleExit`; the thread's
exit code is returned.  The result is the returned exit code, the worker state
after the exit handling, and the observable messenger effects. -/
def terminate (w : WorkerState) (exitCode : Nat) : Nat × WorkerState × List MAction :=
  if w.isTerminated then
    (0, w, [])
  else
    let w1 := { w with isTerminated := true }
    let (w2, acts) := _handleExit w1 exitCode
    (exitCode, w2, acts)

/-! ## `WorkerPool` (`src/main-thread/worker-pool.ts`) -/

/-- The pool's state over an arbitrary worker-handle type `W` (the source holds
`Worker` objects; `W := Nat` labels workers by construction order where reference
identity matters). -/
structure PoolSt (W : Type) where
  workers : List W
  isDisposed : Bool
  moduleCounter : Nat
  roundRobinCounter : Nat

/-- `WorkerPool.size`: the number of live worker handles. -/
def size {W : Type} (p : PoolSt W) : Nat :=
  p.workers.length

/-- `WorkerPool._select()`: return
`this._workers[this._roundRobinCounter++ % this._workers.length]` — the worker at
the cursor position modulo the pool size, post-incrementing the cursor. -/
def _select {W : Type} (p : PoolSt W) : Option W × PoolSt W :=
  (p.workers[p.roundRobinCounter % p.workers.length]?,
   { p with roundRobinCounter := p.roundRobinCounter + 1 })

/-- The result of the `i`-th (0-based) `_select` invocation starting from pool
state `p`, with the cursor state threaded through the preceding invocations (as
happens when the processor proxy returned by `importFileProcessor` is invoked
repeatedly). -/
def selectAfter {W : Type} (p : PoolSt W) : Nat → Option W
  | 0 => (_select p).1
  | n + 1 => selectAfter (_select p).2 n

/-- A freshly constructed pool of `concurrency = N` workers, labelled
`0, …, N - 1` in construction order; both counters start at 0 and the pool is not
disposed. -/
def freshPool (N : Nat) : PoolSt Nat :=
  ⟨List.range N, false, 0, 0⟩

/-- `WorkerPool.dispose()`: set `_isDisposed`, detach all workers (replace the
list by `[]`), and terminate each detached worker in parallel.  The second
component is the list of detached workers handed to `terminate`. -/
def dispose {W : Type} (p : PoolSt W) : PoolSt W × List W :=
  ({ p with isDisposed := true, workers := [] }, p.workers)

end MainThread

namespace WorkerThread

/-! ## Worker-thread runtime (`src/worker-thread/executor.ts`,
`src/worker-thread/messenger.ts`, the run/context clone module)

`importFileProcessor` and `importModule` are embedded from the Executor revision
that assembles its error messages explicitly (`src/unnamed/part_000`); `processFile`
and the message handler are common to both revisions in the source. -/

/-- A changed file as transported inside a run/context clone: change records carry
no contents. -/
structure ChangedFileClone where
  path : String
  change : String
deriving DecidableEq, Repr

/-- The `RunClone` record (the transported `Run`/`BuildContext`): primitive fields
plus the changed files; the `log` capability is stripped before transport and
reinstalled by `createRun`.  The source's `partial` flag is named `incremental`
here because `partial` is a reserved word in Lean. -/
structure RunClone where
  cwd : String
  concurrency : Nat
  dev : Bool
  debug : Bool
  full : Bool
  incremental : Bool
  changedFiles : List ChangedFileClone
deriving DecidableEq, Repr

/-- `createLogReply(level, to, msg, data)`: a `log` reply to the originating
message id, with the message serialized through `cloneError` (which is `clone` on
the message value; strings pass through unchanged).  The fresh-id seed of this
per-reply serialization is fixed at 0: ids only matter within one clone operation. -/
def createLogReply (level : LogLevel) (toId : Nat) (msg : Val) (data : Option Val) : Reply :=
  .log toId level (cloneVal msg defaultDepth 0).1 data

/-- The logger reinstalled inside the Executor for one `processFile` request: a
callable (`call`) that routes strings to `info` and errors to `error`, plus the
named severities.  Each method returns the list of replies it posts through the
messenger. -/
structure Logger where
  call : Val → Option Val → List Reply
  info : String → Option Val → List Reply
  debug : String → Option Val → List Reply
  warn : Val → Option Val → List Reply
  error : Val → Option Val → List Reply

/-- `createLogger(messenger, messageId, run)` from the run-clone module
(`src/unnamed/part_008`): every method posts a `log` reply tagged with the
originating message id, except that `debug` posts nothing when `run.debug` is
false.  The callable form posts at `info` level for strings and at `error` level
otherwise (mirroring `log.info` / `log.error`, which a structure literal cannot
reference directly). -/
def createLogger (messageId : Nat) (run : RunClone) : Logger where
  call := fun m d =>
    match m with
    | .str s => [createLogReply .info messageId (.str s) d]
    | other => [createLogReply .error messageId other d]
  info := fun m d => [createLogReply .info messageId (.str m) d]
  debug := fun m d =>
    if run.debug then [createLogReply .debug messageId (.str m) d] else []
  warn := fun m d => [createLogReply .warning messageId m d]
  error := fun m d => [createLogReply .error messageId m d]

/-- The materialized `Run` inside the Executor: the clone's fields, the changed
files rebuilt (`createChangedFile`, an external helper, is the identity here) and a
fresh `log` capability bound to the message id. -/
structure RunV where
  cwd : String
  concurrency : Nat
  dev : Bool
  debug : Bool
  full : Bool
  incremental : Bool
  changedFiles : List ChangedFileClone
  log : Logger

/-- `createRun(messenger, messageId, run)`: materialize a `Run` from its clone,
installing the logger bound to the originating message id. -/
def createRun (messageId : Nat) (rc : RunClone) : RunV :=
  { cwd := rc.cwd, concurrency := rc.concurrency, dev := rc.dev, debug := rc.debug,
    full := rc.full, incremental := rc.incremental, changedFiles := rc.changedFiles,
    log := createLogger messageId rc }

/-- A registered `FileProcessor`: invoked with the materialized file and run, it
either throws (an error record) or produces the finite sequence of output files its
result iterates to (already normalized; `normalizeFileInfo` is external). -/
def FileProcessor : Type :=
  FileV → RunV → Except ErrorClone (List FileV)

/-- What invoking the factory function exported by a plugin module returns. -/
inductive ProductVal where
  | nullishP
  | valueP (display : String)
  | funcP (name : String) (behavior : FileProcessor)

/-- The `default` export of an imported plugin module: absent (`undefined`/`null`),
a non-function value (carried with its rendering by the external stringify
library, e.g. `"3.141592653589793"`), or a function with its declared `name`,
its behavior when invoked as a factory with data, and its behavior when registered
directly as a file processor. -/
inductive DefaultExport where
  | nullish
  | value (display : String)
  | func (name : String) (factory : Val → Except ErrorClone ProductVal)
      (behavior : FileProcessor)

/-- The namespace object of an imported module, as consumed by the Executor. -/
structure ModuleExports where
  defaultExport : DefaultExport

/-- The module-import oracle: the result of the external
`importModule(moduleId, cwd)` helper (resolution plus dynamic import), which
either yields the module's exports or throws. -/
def ImportOracle : Type :=
  String → String → Except ErrorClone ModuleExports

/-- Modelled from the spec: wrapping by the external `ono` library of an error
thrown during module resolution or import — `ono(error, { workerId, moduleId },
"Error importing module: <moduleId>")` preserves the original kind and appends the
original message after the prefix (spec section 4.6). -/
def onoWrap (e : ErrorClone) (workerId : Nat) (moduleId : String) : ErrorClone :=
  { name := e.name,
    message := "Error importing module: " ++ moduleId ++ "\n" ++ e.message,
    stack := e.stack, workerId := some workerId, moduleId := some moduleId }

/-- The Executor's state: its thread id and the `_processors` registry mapping
each moduleUID to its registered `FileProcessor`. -/
structure ExecState where
  threadId : Nat
  processors : List (Nat × FileProcessor)

/-- `Map.get` on the `_processors` registry. -/
def lookupProcessor (ex : ExecState) (moduleUID : Nat) : Option FileProcessor :=
  (ex.processors.find? (fun kv => kv.1 == moduleUID)).map Prod.snd

/-- `Map.set` on the `_processors` registry: overwrite an existing entry for the
key, or append a new one. -/
def setProcessor : List (Nat × FileProcessor) → Nat → FileProcessor → List (Nat × FileProcessor)
  | [], uid, p => [(uid, p)]
  | (k, q) :: rest, uid, p =>
    if k == uid then (k, p) :: rest else (k, q) :: setProcessor rest uid p

/-- An incoming message from the `Worker`, already stamped with its `id`
(`src/messaging/messages.ts`). -/
inductive Message where
  | importFileProcessor (id moduleUID : Nat) (moduleId cwd : String) (data : Option Val)
  | importModule (id : Nat) (moduleId cwd : String) (data : Option Val)
  | processFile (id moduleUID : Nat) (file : FileV) (run : RunClone)

/-- The `id` an incoming message was stamped with. -/
def Message.msgId : Message → Nat
  | .importFileProcessor id _ _ _ _ => id
  | .importModule id _ _ _ => id
  | .processFile id _ _ _ => id

/-- The `TypeError` thrown for a non-function default export:
`Error importing module: <moduleId> \n The module exported <stringified>.
CodeEngine plugin modules must export a function.` -/
def exportedValueError (workerId : Nat) (moduleId display : String) : ErrorClone :=
  { name := "TypeError",
    message := "Error importing module: " ++ moduleId ++ " \n" ++
      "The module exported " ++ display ++ ". " ++
      "CodeEngine plugin modules must export a function.",
    workerId := some workerId, moduleId := some moduleId }

/-- `Executor.importFileProcessor(message)` (revision `src/unnamed/part_000`).
Import the module, wrapping import-time errors with the `Error importing module:`
prefix.  A missing default export, or a non-function one, raises a `TypeError`
whose message carries the same prefix and describes the export.  Without `data`
the exported function itself is registered under the moduleUID; with `data` the
function is invoked as a factory (uncaught if it throws) and must return a
function, which is registered instead.  On success the Executor replies
`fileProcessorImported` with the registered processor's declared name. -/
def importFileProcessorOp (imp : ImportOracle) (ex : ExecState)
    (id moduleUID : Nat) (moduleId cwd : String) (data : Option Val) :
    Except ErrorClone (List Reply × ExecState) :=
  match imp moduleId cwd with
  | .error e => .error (onoWrap e ex.threadId moduleId)
  | .ok exports =>
    match exports.defaultExport with
    | .nullish =>
      .error { name := "TypeError",
               message := "Error importing module: " ++ moduleId ++ " \n" ++
                 "CodeEngine plugin modules must export a function.",
               workerId := some ex.threadId, moduleId := some moduleId }
    | .value display => .error (exportedValueError ex.threadId moduleId display)
    | .func name factory behavior =>
      match data with
      | none =>
        .ok ([.fileProcessorImported id name],
             { ex with processors := setProcessor ex.processors moduleUID behavior })
      | some d =>
        match factory d with
        | .error e => .error e
        | .ok .nullishP =>
          .error { name := "TypeError",
                   message := "Error importing module: " ++ moduleId ++ " \n" ++
                     "The " ++ (if name = "" then "exported" else name) ++
                     " function must return a CodeEngine file processor.",
                   workerId := some ex.threadId, moduleId := some moduleId }
        | .ok (.valueP display) =>
          .error { name := "TypeError",
                   message := "Error importing module: " ++ moduleId ++ " \n" ++
                     "The " ++ (if name = "" then "exported" else name) ++
                     " function returned " ++ display ++ ". " ++
                     "Expected a CodeEngine file processor.",
                   workerId := some ex.threadId, moduleId := some moduleId }
        | .ok (.funcP pname pbehavior) =>
          .ok ([.fileProcessorImported id pname],
               { ex with processors := setProcessor ex.processors moduleUID pbehavior })

/-- `Executor.importModule(message)` (revision `src/unnamed/part_000`): import the
module (wrapping import-time errors with the prefix); when
`exports.default || exports` is a function, invoke it with the message's data
(uncaught if it throws); reply `finished`. -/
def importModuleOp (imp : ImportOracle) (ex : ExecState)
    (id : Nat) (moduleId cwd : String) (data : Option Val) :
    Except ErrorClone (List Reply × ExecState) :=
  match imp moduleId cwd with
  | .error e => .error (onoWrap e ex.threadId moduleId)
  | .ok exports =>
    match exports.defaultExport with
    | .func _ factory _ =>
      match factory (data.getD .undefV) with
      | .error e => .error e
      | .ok _ => .ok ([.finished id], ex)
    | _ => .ok ([.finished id], ex)

/-- The `TypeError` raised by `fileProcessor.call(undefined, file, run)` when the
moduleUID was never registered, so `this._processors.get(message.moduleUID)!`
yielded `undefined`. -/
def undefinedCallError : ErrorClone :=
  { name := "TypeError",
    message := "Cannot read properties of undefined (reading 'call')" }

/-- `Executor.processFile(message)`: materialize the file (`createFile`, an
external validator, is the identity here) and the run with its logger; look up the
processor registered for the moduleUID and invoke it — when the lookup yields
nothing the invocation throws `undefinedCallError`; post a `file` reply (with the
output of `cloneFile`, whose transfer list rides along on the post) for each
produced file, then a `finished` reply. -/
def processFileOp (ex : ExecState) (id moduleUID : Nat) (file : FileV)
    (run : RunClone) : Except ErrorClone (List Reply × ExecState) :=
  let fileV := file
  let runV := createRun id run
  match lookupProcessor ex moduleUID with
  | none => .error undefinedCallError
  | some fileProcessor =>
    match fileProcessor fileV runV with
    | .error e => .error e
    | .ok output =>
      .ok ((output.map (fun outFile => Reply.file id (cloneFile outFile).1)) ++
           [.finished id], ex)

/-- The `switch (message.type)` dispatch of the worker-thread messenger's
`_handleMessage`, before its `catch`: route the message to the Executor operation
and propagate anything it throws. -/
def dispatch (imp : ImportOracle) (ex : ExecState) (msg : Message) :
    Except ErrorClone (List Reply × ExecState) :=
  match msg with
  | .importFileProcessor id moduleUID moduleId cwd data =>
    importFileProcessorOp imp ex id moduleUID moduleId cwd data
  | .importModule id moduleId cwd data =>
    importModuleOp imp ex id moduleId cwd data
  | .processFile id moduleUID file run =>
    processFileOp ex id moduleUID file run

/-- `Messenger._handleMessage(message)` from `src/worker-thread/messenger.ts`: run
the dispatched operation; if anything goes wrong while handling the message, catch
it and reply with a single `error` reply — carrying the cloned error — addressed
to the message's id, leaving the Executor state unchanged. -/
def _handleMessage (imp : ImportOracle) (ex : ExecState) (msg : Message) :
    List Reply × ExecState :=
  match dispatch imp ex msg with
  | .ok result => result
  | .error e => ([.error msg.msgId (cloneErrorRec e)], ex)

end WorkerThread

/-- A chain of `n + 1` nested class instances (non-plain objects), each holding
the next under key `"x"`; the innermost holds the number 7. -/
def chainV : Nat → Val
  | 0 => .cobj 300 [("x", .num 7)]
  | n + 1 => .cobj (301 + n) [("x", chainV n)]

/-- Follow the `"x"` property `n` times from a value. -/
def getPath : Val → Nat → Val
  | v, 0 => v
  | v, n + 1 => getPath (getFieldV v "x") n

end CEW

/-! # Theorems -/

open CEW

/-- C2: for every file given to `cloneFile`, the returned transfer list contains
the contents' underlying byte buffer if and only if the file has contents and the
contents occupy the entire underlying buffer (`contents.byteLength` equals the
buffer's `byteLength`); when the contents are a view into a shared buffer, no
buffer is placed on the transfer list and the source-side buffer stays intact
after the send. -/
theorem c2_cloneFile_transfer_list (f : FileV) :
    (((cloneFile f).2).isSome = true ↔
      ∃ c, f.contents = some c ∧ c.byteLength = c.bufferByteLength) ∧
    (∀ c, f.contents = some c → c.byteLength = c.bufferByteLength →
      (cloneFile f).2 = some [c.bufferId]) ∧
    (∀ c, f.contents = some c → c.byteLength ≠ c.bufferByteLength →
      (cloneFile f).2 = none ∧
      byteLengthAfterSend c (cloneFile f).2 = c.bufferByteLength) := by
  refine ⟨?_, ?_, ?_⟩
  · constructor
    · intro h
      match hc : f.contents with
      | none => simp [cloneFile, hc] at h
      | some c =>
        refine ⟨c, rfl, ?_⟩
        by_contra hne
        simp [cloneFile, hc, hne] at h
    · rintro ⟨c, hc, hlen⟩
      simp [cloneFile, hc, hlen]
  · intro c hc hlen
    simp [cloneFile, hc, hlen]
  · intro c hc hlen
    refine ⟨?_, ?_⟩ <;> simp [cloneFile, hc, hlen, byteLengthAfterSend]

/-- Witness for C2 at a concrete sliced file: a 12-byte view at offset 20 of a
50-byte shared buffer is not transferred and the source buffer stays 50 bytes
long. -/
theorem c2_witness :
    (cloneFile { path := "file.txt",
                 contents := some ⟨7, 50, 20, 12⟩ } : FileV × Option (List Nat)).2 = none ∧
    byteLengthAfterSend ⟨7, 50, 20, 12⟩
      (cloneFile { path := "file.txt", contents := some ⟨7, 50, 20, 12⟩ } : FileV × Option (List Nat)).2 = 50 :=
  (c2_cloneFile_transfer_list
    { path := "file.txt", contents := some ⟨7, 50, 20, 12⟩ }).2.2
    ⟨7, 50, 20, 12⟩ rfl (by decide)

/-- C5: `dispose()` is idempotent — after the first call, `size = 0` and
`isDisposed = true`, and a second `dispose()` leaves the pool state unchanged and
terminates no workers. -/
theorem c5_dispose_idempotent {W : Type} (p : MainThread.PoolSt W) :
    MainThread.size (MainThread.dispose p).1 = 0 ∧
    (MainThread.dispose p).1.isDisposed = true ∧
    MainThread.dispose (MainThread.dispose p).1 = ((MainThread.dispose p).1, []) :=
  ⟨rfl, rfl, rfl⟩

/-- C8: a `log.debug(message, data)` call through the logger installed for a
`processFile` request posts a debug-level log reply addressed to the originating
message id exactly when `run.debug` is true, and posts nothing otherwise. -/
theorem c8_debug_suppressed (messageId : Nat) (run : WorkerThread.RunClone)
    (m : String) (d : Option Val) :
    ((WorkerThread.createLogger messageId run).debug m d =
      if run.debug then [Reply.log messageId .debug (.str m) d] else []) ∧
    ((WorkerThread.createLogger messageId run).debug m d ≠ [] ↔ run.debug = true) := by
  constructor
  · by_cases h : run.debug <;>
      simp [WorkerThread.createLogger, WorkerThread.createLogReply, h, cloneVal, isCloneableV]
  · by_cases h : run.debug <;>
      simp [WorkerThread.createLogger, WorkerThread.createLogReply, h, cloneVal, isCloneableV]

/-- C4: `Worker.terminate()` returns 0 and changes nothing when the worker is
already terminated; otherwise it marks the worker terminated, rejects every entry
of the pending-request table with the Terminating error (recording each id as
completed), terminates the underlying thread and returns its exit code. -/
theorem c4_worker_terminate (w : MainThread.WorkerState) (exitCode : Nat) :
    (w.isTerminated = true → MainThread.terminate w exitCode = (0, w, [])) ∧
    (w.isTerminated = false →
      (MainThread.terminate w exitCode).1 = exitCode ∧
      (MainThread.terminate w exitCode).2.1.isTerminated = true ∧
      (MainThread.terminate w exitCode).2.1.messenger.pending = [] ∧
      (MainThread.terminate w exitCode).2.1.messenger.completed
        = w.messenger.completed ++ w.messenger.pending ∧
      (MainThread.terminate w exitCode).2.2
        = w.messenger.pending.map
            (fun id => .reject id (MainThread.terminatingError w.threadId))) := by
  constructor
  · intro h
    simp [MainThread.terminate, h]
  · intro h
    simp [MainThread.terminate, h, MainThread._handleExit,
      MainThread.rejectAllPendingMessages]

/-- Witness for C4: a live worker (thread 3) with pending requests 1 and 2
terminates with exit code 5, rejecting both with the Terminating error. -/
theorem c4_witness :
    (MainThread.terminate ⟨3, ⟨[1, 2], [0]⟩, false⟩ 5).1 = 5 ∧
    (MainThread.terminate ⟨3, ⟨[1, 2], [0]⟩, false⟩ 5).2.1.isTerminated = true ∧
    (MainThread.terminate ⟨3, ⟨[1, 2], [0]⟩, false⟩ 5).2.1.messenger.pending = [] ∧
    (MainThread.terminate ⟨3, ⟨[1, 2], [0]⟩, false⟩ 5).2.1.messenger.completed
      = [0] ++ [1, 2] ∧
    (MainThread.terminate ⟨3, ⟨[1, 2], [0]⟩, false⟩ 5).2.2
      = [1, 2].map (fun id => .reject id (MainThread.terminatingError 3)) :=
  (c4_worker_terminate ⟨3, ⟨[1, 2], [0]⟩, false⟩ 5).2 rfl

/-- C6: a reply whose id is neither pending nor in the completed history makes the
main-thread messenger emit an internal Invalid-message-ID error event; a
(non-pending) reply whose id is in the completed history is ignored silently; and
`rejectAllPendingMessages(error)` drains the whole pending table in one step,
rejects each drained waiter with the given error, and records every drained id as
completed, so a later reply to a drained id is ignored. -/
theorem c6_unknown_and_drained_replies (s : MainThread.MessengerState)
    (reply r2 : Reply) (err : MainThread.JSError) :
    (reply.toId ∉ s.pending → reply.toId ∉ s.completed →
      MainThread._handleMessage s reply =
        (s, [.emitError (MainThread.invalidMessageIdError reply.toId)])) ∧
    (reply.toId ∉ s.pending → reply.toId ∈ s.completed →
      MainThread._handleMessage s reply = (s, [])) ∧
    (MainThread.rejectAllPendingMessages s err =
      (⟨[], s.completed ++ s.pending⟩, s.pending.map (fun id => .reject id err))) ∧
    (r2.toId ∈ s.pending →
      MainThread._handleMessage (MainThread.rejectAllPendingMessages s err).1 r2 =
        ((MainThread.rejectAllPendingMessages s err).1, [])) := by
  refine ⟨?_, ?_, rfl, ?_⟩
  · intro h1 h2
    simp [MainThread._handleMessage, h1, h2]
  · intro h1 h2
    simp [MainThread._handleMessage, h1, h2]
  · intro h
    simp [MainThread._handleMessage, MainThread.rejectAllPendingMessages, h]

/-- Witness for C6: with pending table `[4]` and completed history `[2]`, a reply
to the unknown id 9 emits the invalid-message-id error, a reply to the completed
id 2 is ignored, and after draining, a late reply to the drained id 4 is ignored. -/
theorem c6_witness :
    (MainThread._handleMessage ⟨[4], [2]⟩ (.finished 9) =
      (⟨[4], [2]⟩, [.emitError (MainThread.invalidMessageIdError 9)])) ∧
    (MainThread._handleMessage ⟨[4], [2]⟩ (.finished 2) = (⟨[4], [2]⟩, [])) ∧
    (MainThread._handleMessage
        (MainThread.rejectAllPendingMessages ⟨[4], [2]⟩ (MainThread.terminatingError 3)).1
        (.finished 4) =
      ((MainThread.rejectAllPendingMessages ⟨[4], [2]⟩ (MainThread.terminatingError 3)).1, [])) :=
  ⟨(c6_unknown_and_drained_replies ⟨[4], [2]⟩ (.finished 9) (.finished 9)
      (MainThread.terminatingError 3)).1 (by decide) (by decide),
   (c6_unknown_and_drained_replies ⟨[4], [2]⟩ (.finished 2) (.finished 2)
      (MainThread.terminatingError 3)).2.1 (by decide) (by decide),
   (c6_unknown_and_drained_replies ⟨[4], [2]⟩ (.finished 4) (.finished 4)
      (MainThread.terminatingError 3)).2.2.2 (by decide)⟩

/-- C7: when an `importFileProcessor` request's module imports successfully but
its default export is present and not a function, the operation fails with a
`TypeError` whose message describes what was actually exported and carries the
prefix `Error importing module: <moduleId>`. -/
theorem c7_nonfunction_export (imp : WorkerThread.ImportOracle)
    (ex : WorkerThread.ExecState) (id moduleUID : Nat) (moduleId cwd : String)
    (data : Option Val) (display : String)
    (h : imp moduleId cwd = .ok ⟨.value display⟩) :
    WorkerThread.dispatch imp ex (.importFileProcessor id moduleUID moduleId cwd data) =
      .error (WorkerThread.exportedValueError ex.threadId moduleId display) ∧
    (WorkerThread.exportedValueError ex.threadId moduleId display).name = "TypeError" ∧
    ∃ rest,
      (WorkerThread.exportedValueError ex.threadId moduleId display).message
        = "Error importing module: " ++ moduleId ++ rest ∧
      rest = " \n" ++ "The module exported " ++ display ++ ". " ++
        "CodeEngine plugin modules must export a function." := by
  refine ⟨?_, rfl, ?_⟩
  · simp [WorkerThread.dispatch, WorkerThread.importFileProcessorOp, h]
  · exact ⟨" \n" ++ "The module exported " ++ display ++ ". " ++
      "CodeEngine plugin modules must export a function.",
      by simp [WorkerThread.exportedValueError, String.append_assoc], rfl⟩

/-- Witness for C7: a module whose default export stringifies to
`3.141592653589793` fails with the documented TypeError. -/
theorem c7_witness :
    WorkerThread.dispatch (fun _ _ => .ok ⟨.value "3.141592653589793"⟩) ⟨1, []⟩
      (.importFileProcessor 9 1 "my-plugin" "/cwd" none) =
      .error (WorkerThread.exportedValueError 1 "my-plugin" "3.141592653589793") ∧
    (WorkerThread.exportedValueError 1 "my-plugin" "3.141592653589793").name
      = "TypeError" ∧
    ∃ rest,
      (WorkerThread.exportedValueError 1 "my-plugin" "3.141592653589793").message
        = "Error importing module: " ++ "my-plugin" ++ rest ∧
      rest = " \n" ++ "The module exported " ++ "3.141592653589793" ++ ". " ++
        "CodeEngine plugin modules must export a function." :=
  c7_nonfunction_export (fun _ _ => .ok ⟨.value "3.141592653589793"⟩) ⟨1, []⟩
    9 1 "my-plugin" "/cwd" none "3.141592653589793" rfl

/-- C9: whenever dispatching an incoming message in the Executor throws, the
worker-thread message handler catches the exception and posts a single `error`
reply (carrying the cloned error) addressed to that message's id, leaving the
Executor state unchanged; in particular a `processFile` message whose moduleUID
was never registered makes the processor lookup yield nothing and the invocation
throw. -/
theorem c9_dispatch_exception_caught (imp : WorkerThread.ImportOracle)
    (ex : WorkerThread.ExecState) (msg : WorkerThread.Message) (e : ErrorClone) :
    (WorkerThread.dispatch imp ex msg = .error e →
      WorkerThread._handleMessage imp ex msg =
        ([.error msg.msgId (cloneErrorRec e)], ex)) ∧
    (∀ id moduleUID file run, msg = .processFile id moduleUID file run →
      WorkerThread.lookupProcessor ex moduleUID = none →
      WorkerThread.dispatch imp ex msg = .error WorkerThread.undefinedCallError) := by
  constructor
  · intro h
    simp [WorkerThread._handleMessage, h]
  · rintro id moduleUID file run rfl hl
    simp [WorkerThread.dispatch, WorkerThread.processFileOp, hl]

/-- Witness for C9: a `processFile` message for the unregistered moduleUID 1 on an
Executor with an empty processor registry yields exactly one error reply to the
message id 9. -/
theorem c9_witness :
    WorkerThread._handleMessage (fun _ _ => .ok ⟨.nullish⟩) ⟨1, []⟩
      (.processFile 9 1 { path := "a.txt" } ⟨"/cwd", 1, false, false, true, false, []⟩) =
      ([.error 9 (cloneErrorRec WorkerThread.undefinedCallError)], ⟨1, []⟩) :=
  (c9_dispatch_exception_caught (fun _ _ => .ok ⟨.nullish⟩) ⟨1, []⟩
      (.processFile 9 1 { path := "a.txt" } ⟨"/cwd", 1, false, false, true, false, []⟩)
      WorkerThread.undefinedCallError).1
    ((c9_dispatch_exception_caught (fun _ _ => .ok ⟨.nullish⟩) ⟨1, []⟩
        (.processFile 9 1 { path := "a.txt" } ⟨"/cwd", 1, false, false, true, false, []⟩)
        WorkerThread.undefinedCallError).2
      9 1 { path := "a.txt" } ⟨"/cwd", 1, false, false, true, false, []⟩ rfl rfl)

/-- JavaScript `===` is reflexive in this model. -/
theorem jsEq_refl (v : Val) : jsEq v v = true := by
  cases v <;> simp [jsEq]

/-- A value that is natively cloneable at some depth is not a function. -/
theorem isFuncV_eq_false_of_cloneable {v : Val} {d : Nat}
    (h : isCloneableV v d = true) : isFuncV v = false := by
  cases v <;> simp_all [isCloneableV, isFuncV]

/-- C3, counterexample: sharing is not preserved by the degradation clone.  In
the object `a = {x: o, y: o}` (a class instance) the two fields are `===` to the
same class instance `o`, yet in `clone(a)` the two fields are distinct copies
(`clone(a).x !== clone(a).y`): the clone walks each property independently and
keeps no memo of already-cloned references. -/
theorem c3_counterexample :
    jsEq
      (getFieldV (.cobj 0 [("x", .cobj 1 [("z", .num 1)]), ("y", .cobj 1 [("z", .num 1)])]) "x")
      (getFieldV (.cobj 0 [("x", .cobj 1 [("z", .num 1)]), ("y", .cobj 1 [("z", .num 1)])]) "y")
      = true ∧
    jsEq
      (getFieldV (clone (.cobj 0 [("x", .cobj 1 [("z", .num 1)]), ("y", .cobj 1 [("z", .num 1)])])).1 "x")
      (getFieldV (clone (.cobj 0 [("x", .cobj 1 [("z", .num 1)]), ("y", .cobj 1 [("z", .num 1)])])).1 "y")
      = false :=
  ⟨rfl, rfl⟩

/-- `clone` returns a natively cloneable value as-is, without allocating. -/
theorem cloneVal_cloneable {v : Val} {d f : Nat} (h : isCloneableV v d = true) :
    cloneVal v d f = (v, f) := by
  rw [cloneVal.eq_def, h]
  simp

/-- C3, amended: within a single clone operation, sharing between two fields of a
degraded object is preserved exactly in the cases where the shared value is
returned by reference — when the shared value is natively cloneable at the
remaining depth, both cloned fields are the very same reference (`jsEq`), the
original one; when the shared value itself requires degradation, the two fields
receive structurally equal but distinct copies (see the counterexample). -/
theorem c3_sharing_amended (id0 : Nat) (x y : String) (w : Val) (depth fresh : Nat)
    (hxy : x ≠ y) (hd : 0 < depth) (hw : isCloneableV w (depth - 1) = true) :
    cloneVal (.cobj id0 [(x, w), (y, w)]) depth fresh
      = (.pobj fresh [(x, w), (y, w)], fresh + 1) ∧
    jsEq (getFieldV (cloneVal (.cobj id0 [(x, w), (y, w)]) depth fresh).1 x)
         (getFieldV (cloneVal (.cobj id0 [(x, w), (y, w)]) depth fresh).1 y) = true := by
  have hf : isFuncV w = false := isFuncV_eq_false_of_cloneable hw
  have heq : cloneVal (.cobj id0 [(x, w), (y, w)]) depth fresh
      = (.pobj fresh [(x, w), (y, w)], fresh + 1) := by
    simp [cloneVal, isCloneableV, cloneFields, hf, hd, cloneVal_cloneable hw]
  refine ⟨heq, ?_⟩
  rw [heq]
  have hxyb : (x == y) = false := by
    simpa using hxy
  simp [getFieldV, lookupField, hxyb, jsEq_refl]

/-- Witness for C3 (amended): two distinct fields sharing the cloneable number 3
inside a class instance keep their sharing across the clone. -/
theorem c3_witness :
    cloneVal (.cobj 0 [("x", .num 3), ("y", .num 3)]) 5 40
      = (.pobj 40 [("x", .num 3), ("y", .num 3)], 41) ∧
    jsEq (getFieldV (cloneVal (.cobj 0 [("x", .num 3), ("y", .num 3)]) 5 40).1 "x")
         (getFieldV (cloneVal (.cobj 0 [("x", .num 3), ("y", .num 3)]) 5 40).1 "y") = true :=
  c3_sharing_amended 0 "x" "y" (.num 3) 5 40 (by decide) (by decide) rfl

/-- At remaining depth 0, the plain-object coercion loop replaces every
non-function property value with `undefined` and allocates nothing. -/
theorem cloneFields_zero (fields : List (String × Val)) (fresh : Nat) :
    cloneFields fields 0 fresh
      = ((fields.filter (fun kv => !isFuncV kv.2)).map (fun kv => (kv.1, Val.undefV)),
         fresh) := by
  induction fields with
  | nil => simp [cloneFields]
  | cons kv rest ih =>
    obtain ⟨k, v⟩ := kv
    by_cases hf : isFuncV v <;> simp [cloneFields, hf, ih]

/-- C10: the degradation clone has a fixed recursion budget with default depth 5
(`clone(value)` is `clone(value, defaultDepth)`), and when coercing a non-plain
object into a plain object at remaining depth 0 every property value is replaced
by `undefined` instead of being copied; consequently a chain of 7 nested class
instances is silently truncated — six `"x"` steps into the default-depth clone
sits `undefined` where the original still has an object. -/
theorem c10_depth_truncation :
    defaultDepth = 5 ∧
    (∀ v, clone v = cloneVal v defaultDepth 0) ∧
    (∀ id0 fields fresh,
      cloneVal (.cobj id0 fields) 0 fresh
        = (.pobj fresh
            ((fields.filter (fun kv => !isFuncV kv.2)).map (fun kv => (kv.1, Val.undefV))),
           fresh + 1)) ∧
    getPath (clone (chainV 6)).1 6 = .undefV ∧
    getPath (chainV 6) 6 = chainV 0 := by
  refine ⟨rfl, fun v => rfl, ?_, rfl, rfl⟩
  intro id0 fields fresh
  simp [cloneVal, isCloneableV, cloneFields_zero]

/-- The `i`-th iterated `_select` picks the worker at index
`(cursor + i) mod size`: the cursor advances by one per invocation and the worker
list never changes. -/
theorem selectAfter_eq {W : Type} (i : Nat) (p : MainThread.PoolSt W) :
    MainThread.selectAfter p i
      = p.workers[(p.roundRobinCounter + i) % p.workers.length]? := by
  induction i generalizing p with
  | zero => simp [MainThread.selectAfter, MainThread._select]
  | succ n ih =>
    rw [MainThread.selectAfter, ih]
    simp only [MainThread._select]
    have : p.roundRobinCounter + 1 + n = p.roundRobinCounter + (n + 1) := by omega
    rw [this]

/-- Among any `N` consecutive values of `(a + j) % N`, the residue `w < N` occurs
exactly once. -/
theorem countP_mod_block (N a w : Nat) (hN : 0 < N) (hw : w < N) :
    (List.range N).countP (fun j => (a + j) % N == w) = 1 := by
  have hb : a % N < N := Nat.mod_lt _ hN
  have hmod : ∀ j, j < N →
      (a + j) % N = if a % N + j < N then a % N + j else a % N + j - N := by
    intro j hj
    rw [Nat.add_mod, Nat.mod_eq_of_lt hj]
    by_cases hlt : a % N + j < N
    · rw [if_pos hlt]
      exact Nat.mod_eq_of_lt hlt
    · rw [if_neg hlt, Nat.mod_eq_sub_mod (by omega)]
      exact Nat.mod_eq_of_lt (by omega)
  have hj0N : (if a % N ≤ w then w - a % N else w + N - a % N) < N := by
    split <;> omega
  have hchar : ∀ j ∈ List.range N,
      ((fun j => (a + j) % N == w) j ↔
        (fun j => j == (if a % N ≤ w then w - a % N else w + N - a % N)) j) := by
    intro j hj
    rw [List.mem_range] at hj
    simp only [beq_iff_eq]
    rw [hmod j hj]
    constructor
    · intro h
      split at h <;> split <;> omega
    · intro h
      subst h
      split <;> split <;> omega
  rw [List.countP_congr hchar]
  have hcount : (List.range N).countP
      (fun j => j == (if a % N ≤ w then w - a % N else w + N - a % N))
      = (List.range N).count (if a % N ≤ w then w - a % N else w + N - a % N) := rfl
  rw [hcount]
  exact List.count_eq_one_of_mem (List.nodup_range N) (List.mem_range.mpr hj0N)

/-- Among any `k * N` consecutive values of `(a + j) % N`, the residue `w < N`
occurs exactly `k` times. -/
theorem countP_mod_window (N a w k : Nat) (hN : 0 < N) (hw : w < N) :
    (List.range (k * N)).countP (fun j => (a + j) % N == w) = k := by
  induction k with
  | zero => simp
  | succ k ih =>
    have hkn : (k + 1) * N = k * N + N := by ring
    rw [hkn, List.range_add, List.countP_append, ih, List.countP_map]
    have hcongr : ∀ j ∈ List.range N,
        (((fun j => (a + j) % N == w) ∘ (fun x => k * N + x)) j ↔
          (fun j => (a + k * N + j) % N == w) j) := by
      intro j _
      have : a + (k * N + j) = a + k * N + j := by omega
      simp only [Function.comp, this]
    rw [List.countP_congr hcongr, countP_mod_block N (a + k * N) w hN hw]

/-- C1: with `N ≥ 1` workers, selection by the processor proxy is strict
round-robin — the `i`-th invocation (0-based, counted from construction) is
dispatched to worker number `i mod N` in construction order, and over any window
of `k * N` consecutive invocations each worker receives exactly `k` calls. -/
theorem c1_round_robin (N : Nat) (hN : 1 ≤ N) :
    (∀ i, MainThread.selectAfter (MainThread.freshPool N) i = some (i % N)) ∧
    (∀ s k w, w < N →
      (List.range (k * N)).countP
        (fun j => MainThread.selectAfter (MainThread.freshPool N) (s + j) == some w)
        = k) := by
  have hsel : ∀ i, MainThread.selectAfter (MainThread.freshPool N) i = some (i % N) := by
    intro i
    rw [selectAfter_eq]
    simp only [MainThread.freshPool, List.length_range, Nat.zero_add]
    exact List.getElem?_range (Nat.mod_lt _ hN)
  refine ⟨hsel, ?_⟩
  intro s k w hw
  have hcongr : ∀ j ∈ List.range (k * N),
      ((fun j => MainThread.selectAfter (MainThread.freshPool N) (s + j) == some w) j ↔
        (fun j => (s + j) % N == w) j) := by
    intro j _
    simp [hsel]
  rw [List.countP_congr hcongr]
  exact countP_mod_window N s w k hN hw

/-- Witness for C1 at `N = 3`: the 4-th invocation goes to worker `4 mod 3 = 1`,
and in the window of `2 * 3` invocations starting at invocation 1 worker 2 is
selected exactly twice. -/
theorem c1_witness :
    MainThread.selectAfter (MainThread.freshPool 3) 4 = some (4 % 3) ∧
    (List.range (2 * 3)).countP
      (fun j => MainThread.selectAfter (MainThread.freshPool 3) (1 + j) == some 2) = 2 :=
  ⟨(c1_round_robin 3 (by decide)).1 4,
   (c1_round_robin 3 (by decide)).2 1 2 2 (by decide)⟩
